import Mathlib

/-!
Shallow embedding of `src/AI_marketing.py` (the `get_bot_response` API
client with exponential-backoff retry logic) and proofs of the spec
claims about it.

JSON bodies are modelled by an inductive `Json` type; the Python dynamic
operations used by the code (`dict.get`, subscripting, `in`, truthiness,
iteration) are modelled by total Lean functions returning `Except PyErr`
where the Python operation can raise.  The HTTP transport is modelled as
a function from the attempt index to an outcome (an HTTP response with a
status code and a JSON body, or a network-level `RequestException`).
-/

namespace AIMarketing

/-- JSON values, as produced by `response.json()`. -/
inductive Json where
  | null
  | bool (b : Bool)
  | num (n : Int)
  | str (s : String)
  | arr (xs : List Json)
  | obj (kvs : List (String × Json))

mutual

/-- Python `==` on parsed JSON values (structural equality). -/
def Json.beq : Json → Json → Bool
  | .null, .null => true
  | .bool a, .bool b => a == b
  | .num a, .num b => a == b
  | .str a, .str b => a == b
  | .arr xs, .arr ys => Json.beqL xs ys
  | .obj xs, .obj ys => Json.beqKV xs ys
  | _, _ => false

def Json.beqL : List Json → List Json → Bool
  | [], [] => true
  | x :: xs, y :: ys => Json.beq x y && Json.beqL xs ys
  | _, _ => false

def Json.beqKV : List (String × Json) → List (String × Json) → Bool
  | [], [] => true
  | (k1, v1) :: xs, (k2, v2) :: ys => k1 == k2 && Json.beq v1 v2 && Json.beqKV xs ys
  | _, _ => false

end

/-- Python truthiness of a JSON value (`if not text`, `if grounding_metadata`). -/
def Json.truthy : Json → Bool
  | .null => false
  | .bool b => b
  | .num n => n != 0
  | .str s => s ≠ ""
  | .arr xs => !xs.isEmpty
  | .obj kvs => !kvs.isEmpty

/-- Kinds of Python exception relevant to the control flow of the client:
`requests.exceptions.RequestException` is caught by the first handler, every
other exception by the generic `except Exception` handler. -/
inductive PyErrKind where
  | exc       -- a plain `Exception(...)` raised by the code itself
  | reqErr    -- `requests.exceptions.RequestException`
  | typeErr
  | keyErr
  | indexErr
  | attrErr
deriving DecidableEq, Repr

/-- A Python exception: its kind and its `str(e)` rendering. -/
structure PyErr where
  kind : PyErrKind
  msg : String
deriving DecidableEq, Repr

/-- First-match association-list lookup (Python dict keys are unique). -/
def jlookup : List (String × Json) → String → Option Json
  | [], _ => none
  | (k, v) :: rest, key => if k = key then some v else jlookup rest key

/-- Python `d.get(key, default)`: raises `AttributeError` on a non-dict receiver. -/
def pyGetD (j : Json) (key : String) (d : Json) : Except PyErr Json :=
  match j with
  | .obj kvs => .ok ((jlookup kvs key).getD d)
  | _ => .error ⟨.attrErr, "object has no attribute get"⟩

/-- Python `d.get(key)` with the implicit `None` default. -/
def pyGet (j : Json) (key : String) : Except PyErr Json :=
  pyGetD j key .null

/-- Python `x[0]`: list indexing (IndexError when empty), string indexing
(a one-character string), dict indexing with the integer key `0`
(KeyError: parsed JSON objects have string keys), TypeError otherwise. -/
def pyIndex0 (j : Json) : Except PyErr Json :=
  match j with
  | .arr [] => .error ⟨.indexErr, "list index out of range"⟩
  | .arr (x :: _) => .ok x
  | .str s =>
    match s.toList with
    | [] => .error ⟨.indexErr, "string index out of range"⟩
    | c :: _ => .ok (.str (String.singleton c))
  | .obj _ => .error ⟨.keyErr, "0"⟩
  | _ => .error ⟨.typeErr, "object is not subscriptable"⟩

/-- Character-list matching of `needle` against the front of `hay`. -/
def leadMatch : List Char → List Char → Bool
  | [], _ => true
  | _ :: _, [] => false
  | a :: as, b :: bs => a == b && leadMatch as bs

/-- Whether `needle` occurs contiguously somewhere in `hay`. -/
def hasSub (needle : List Char) : List Char → Bool
  | [] => leadMatch needle []
  | hay@(_ :: rest) => leadMatch needle hay || hasSub needle rest

/-- Python `key in j`: dict key membership, list element membership, substring
test on strings; TypeError on non-container values. -/
def pyContains (key : String) (j : Json) : Except PyErr Bool :=
  match j with
  | .obj kvs => .ok (kvs.any (fun kv => kv.1 = key))
  | .arr xs => .ok (xs.any (fun x => x.beq (.str key)))
  | .str s => .ok (hasSub key.toList s.toList)
  | _ => .error ⟨.typeErr, "argument is not iterable"⟩

/-- Python `j[key]` with a string key: dict lookup (KeyError when absent),
TypeError on every other receiver. -/
def pySubscript (j : Json) (key : String) : Except PyErr Json :=
  match j with
  | .obj kvs =>
    match jlookup kvs key with
    | some v => .ok v
    | none => .error ⟨.keyErr, key⟩
  | _ => .error ⟨.typeErr, "indices must be integers"⟩

/-- Python `for x in j`: lists yield elements, dicts yield their keys, strings
yield one-character strings; TypeError otherwise. -/
def pyIterate (j : Json) : Except PyErr (List Json) :=
  match j with
  | .arr xs => .ok xs
  | .obj kvs => .ok (kvs.map (fun kv => .str kv.1))
  | .str s => .ok (s.toList.map (fun c => .str (String.singleton c)))
  | _ => .error ⟨.typeErr, "object is not iterable"⟩

/-- Python `str(x)` as used by the f-strings of the error paths. -/
def pyStr : Json → String
  | .null => "None"
  | .bool true => "True"
  | .bool false => "False"
  | .num n => toString n
  | .str s => s
  | .arr _ => "[...]"
  | .obj _ => "{...}"

/-- The fixed persona instruction (`SYSTEM_PROMPT`); its exact text plays
no role in any claim, only its identity as the synthetic system turn. -/
def SYSTEM_PROMPT : String :=
  "You are an expert Digital Marketing Strategist. Provide insightful, actionable, and up-to-date advice on all aspects of digital marketing, cite your sources, and use markdown."

/-- One wire message `{role, parts:[{text}]}` as assembled by the UI and
consumed by `get_bot_response`. -/
structure Msg where
  role : String
  text : String
deriving DecidableEq, Repr

/-- The synthetic system turn prepended to every request. -/
def system_message : Msg := ⟨"system", SYSTEM_PROMPT⟩

def max_history_length : Nat := 10

/-- Python `xs[-n:]`: the last `min n (length xs)` elements. -/
def lastN (n : Nat) (xs : List Msg) : List Msg :=
  xs.drop (xs.length - n)

/-- The list comprehension `[msg for msg in chat_history if msg["role"] != "system"]` of line 38:
it reads `chat_history` and allocates a fresh list, so the state component
(first projection) is the source list unchanged. -/
def pyFilterNonSystem (chat_history : List Msg) : List Msg × List Msg :=
  (chat_history, chat_history.filter (fun m => m.role ≠ "system"))

/-- Request contents: the synthetic system turn followed by the last 10
non-system turns, together with the value of `chat_history` after the
construction (lines 37-48 of the source). -/
def buildContents (chat_history : List Msg) : List Msg × List Msg :=
  let fr := pyFilterNonSystem chat_history
  let recent_history_payload := lastN max_history_length fr.2
  (fr.1, system_message :: recent_history_payload)

/-- One step of the list comprehension over `groundingAttributions`
(lines 75-82): evaluate the filter condition
`attr.get("web") and attr.get("web").get("uri") and attr.get("web").get("title")`
with Python short-circuiting, then, when kept, the element expression
`attr.get("web", dict()).get("uri")` / `attr.get("web", dict()).get("title")`.
`none` means the attribution is filtered out; `.error` means the Python
evaluation raised. The entry is the `(uri, title)` pair. -/
def evalAttr (attr : Json) : Except PyErr (Option (Json × Json)) := do
  let web ← pyGet attr "web"
  if web.truthy then
    let uri ← pyGet web "uri"
    if uri.truthy then
      let title ← pyGet web "title"
      if title.truthy then
        let web2 ← pyGetD attr "web" (.obj [])
        let uri2 ← pyGet web2 "uri"
        let web3 ← pyGetD attr "web" (.obj [])
        let title2 ← pyGet web3 "title"
        return some (uri2, title2)
      else return none
    else return none
  else return none

/-- The whole list comprehension: left-to-right over the attributions,
keeping the retained entries in order. -/
def extractList : List Json → Except PyErr (List (Json × Json))
  | [] => .ok []
  | attr :: rest => do
    let o ← evalAttr attr
    let tl ← extractList rest
    match o with
    | some p => return p :: tl
    | none => return tl

/-- Source extraction from a candidate (lines 72-82): read
`candidate.get("groundingMetadata", dict())`; when it is truthy and contains
the key `groundingAttributions`, run the comprehension, else keep `[]`. -/
def extract_sources (candidate : Json) : Except PyErr (List (Json × Json)) := do
  let gm ← pyGetD candidate "groundingMetadata" (.obj [])
  if gm.truthy then
    let hasKey ← pyContains "groundingAttributions" gm
    if hasKey then
      let attrsJ ← pySubscript gm "groundingAttributions"
      let items ← pyIterate attrsJ
      extractList items
    else pure []
  else pure []

/-- The `response.ok` branch (lines 61-84): extract
`candidates[0].content.parts[0].text` with the `.get` defaults of the code,
raise `Exception("Invalid response structure from API.")` when the text is
falsy, then extract the sources.  An `.error` models an exception escaping
the branch (to be caught by `except Exception`). -/
def handleOk (body : Json) : Except PyErr (Json × List (Json × Json)) := do
  let candidates ← pyGetD body "candidates" (.arr [.obj []])
  let candidate ← pyIndex0 candidates
  let contentField ← pyGetD candidate "content" (.obj [])
  let parts ← pyGetD contentField "parts" (.arr [.obj []])
  let content ← pyIndex0 parts
  let text ← pyGetD content "text" (.str "")
  if !text.truthy then
    throw ⟨.exc, "Invalid response structure from API."⟩
  let sources ← extract_sources candidate
  return (text, sources)

/-- The non-retryable error branch (lines 92-96):
`raise Exception` of the message found at `error_result.get("error", dict()).get("message", default)` where the default mentions the HTTP status.
When the `.get` chain itself raises, that exception escapes instead. -/
def handleErrStatus (status : Nat) (body : Json) : PyErr :=
  match (do
      let e ← pyGetD body "error" (.obj [])
      let m ← pyGetD e "message" (.str ("HTTP error! status: " ++ toString status))
      pure m : Except PyErr Json) with
  | .ok m => ⟨.exc, pyStr m⟩
  | .error e => e

/-- The outcome of one attempt from the transport: an HTTP response (status and
parsed JSON body) or a network-level `requests.exceptions.RequestException`. -/
inductive HttpOutcome where
  | resp (status : Nat) (body : Json)
  | netErr (msg : String)

/-- How `get_bot_response` ends: a Python `return text, sources` (the
text is a JSON value, the placeholder paths return a string) or an
uncaught exception. -/
inductive CallResult where
  | returned (text : Json) (sources : List (Json × Json))
  | raised (e : PyErr)

def max_retries : Nat := 5

/-- The placeholder produced by the generic handler (line 107):
`return f"Sorry, I encountered an error: {e}", []`. -/
def placeholderText (e : PyErr) : String :=
  "Sorry, I encountered an error: " ++ e.msg

/-- What one iteration of the `while` loop decides to do. -/
inductive AttemptRes where
  | finish (r : CallResult)
  | retrySleep

/-- One iteration of the retry loop body (lines 58-107), given the
outcome of the transport for this attempt and the current value of `retries`.
`response.ok` is `status < 400`.  A raise of a non-`RequestException`
inside the `try` (malformed 2xx structure, or the `ApiError`-style raise
on a definitive 4xx) is caught by `except Exception` and converted into a
returned placeholder two-tuple.  A `RequestException` retries, except on
the final allowed attempt (`retries >= max_retries - 1`) where it is
re-raised. -/
def step (out : HttpOutcome) (retries : Nat) : AttemptRes :=
  match out with
  | .resp status body =>
    if status < 400 then
      match handleOk body with
      | .ok (text, sources) => .finish (.returned text sources)
      | .error e => .finish (.returned (.str (placeholderText e)) [])
    else if status == 429 || 500 ≤ status then
      .retrySleep
    else
      .finish (.returned (.str (placeholderText (handleErrStatus status body))) [])
  | .netErr msg =>
    if max_retries - 1 ≤ retries then .finish (.raised ⟨.reqErr, msg⟩)
    else .retrySleep

/-- Result of running the whole retry loop: how the call ended, the list
of back-off sleep durations in order, and the number of POST attempts. -/
structure RunResult where
  result : CallResult
  sleeps : List Nat
  attempts : Nat

/-- The `while retries < max_retries` loop (lines 57-109).  `fuel` is the
number of remaining permitted iterations (`max_retries - retries`); when
it reaches zero the loop exits and line 109 raises
`Exception("Max retries reached. ...")`.  On a retry the loop sleeps
`delay` seconds, doubles `delay` and increments `retries`; the transport
is consulted once per attempt, indexed by the attempt count. -/
def loop (transport : Nat → HttpOutcome) :
    Nat → Nat → Nat → List Nat → Nat → RunResult
  | 0, _, _, sleeps, attempts =>
    ⟨.raised ⟨.exc, "Max retries reached. Could not get a response from the API."⟩,
      sleeps, attempts⟩
  | fuel + 1, retries, delay, sleeps, attempts =>
    match step (transport attempts) retries with
    | .finish r => ⟨r, sleeps, attempts + 1⟩
    | .retrySleep =>
      loop transport fuel (retries + 1) (delay * 2) (sleeps ++ [delay]) (attempts + 1)

/-- Run the retry loop from its initial state: `retries = 0`, `delay = 1`. -/
def runBot (transport : Nat → HttpOutcome) : RunResult :=
  loop transport max_retries 0 1 [] 0

/-- The observable effect of one call to `get_bot_response`: the value of
the `chat_history` of the caller after the call, the request contents that
were built, and the result of the loop. -/
structure BotCall where
  history_after : List Msg
  contents : List Msg
  run : RunResult

/-- The whole of `get_bot_response` (lines 29-109) against a mocked
transport: build the bounded request contents from `chat_history`
(without mutating it), then run the retry loop. -/
def get_bot_response (chat_history : List Msg) (transport : Nat → HttpOutcome) :
    BotCall :=
  let bc := buildContents chat_history
  ⟨bc.1, bc.2, runBot transport⟩

/-- Pure characterization of the attribution filter: an attribution is
kept exactly when it is a dict whose `web` value is a truthy dict with
truthy `uri` and truthy `title`, and then contributes the `(uri, title)`
pair.  (Whenever the Python evaluation of an attribution completes
without raising, it agrees with this function.) -/
def pureSrc (attr : Json) : Option (Json × Json) :=
  match attr with
  | .obj kvs =>
    match jlookup kvs "web" with
    | some (.obj wkvs) =>
      let uri := (jlookup wkvs "uri").getD .null
      let title := (jlookup wkvs "title").getD .null
      if (Json.obj wkvs).truthy && uri.truthy && title.truthy then some (uri, title)
      else none
    | _ => none
  | _ => none

/-- Mocked transport: every attempt answers HTTP 400 with the body
`{"error": {"message": "bad key"}}`. -/
def t400 : Nat → HttpOutcome :=
  fun _ => .resp 400 (.obj [("error", .obj [("message", .str "bad key")])])

/-- A 2xx body whose `candidates[0].content.parts[0].text` is the empty
string. -/
def emptyTextBody : Json :=
  .obj [("candidates", .arr [.obj [
    ("content", .obj [("parts", .arr [.obj [("text", .str "")]])])]])]

/-- Mocked transport: every attempt answers HTTP 200 with an empty text. -/
def t200empty : Nat → HttpOutcome := fun _ => .resp 200 emptyTextBody

/-- A 2xx body whose `candidates` list is present but empty, so the
in-line `[0]` indexing raises IndexError. -/
def noCandBody : Json := .obj [("candidates", .arr [])]

/-- Mocked transport: every attempt answers HTTP 200 with an empty
candidate list. -/
def t200nocand : Nat → HttpOutcome := fun _ => .resp 200 noCandBody

/-- A well-formed 2xx body: text "hello", one complete attribution, one
attribution with an empty uri and no title (to be dropped), and one more
complete attribution. -/
def goodBody : Json :=
  .obj [("candidates", .arr [.obj [
    ("content", .obj [("parts", .arr [.obj [("text", .str "hello")]])]),
    ("groundingMetadata", .obj [("groundingAttributions", .arr [
      .obj [("web", .obj [("uri", .str "u1"), ("title", .str "t1")])],
      .obj [("web", .obj [("uri", .str "")])],
      .obj [("web", .obj [("uri", .str "u2"), ("title", .str "t2")])]])])]])]

/-- The attribution list of `goodBody`. -/
def goodAttrs : List Json :=
  [.obj [("web", .obj [("uri", .str "u1"), ("title", .str "t1")])],
   .obj [("web", .obj [("uri", .str "")])],
   .obj [("web", .obj [("uri", .str "u2"), ("title", .str "t2")])]]

/-- The candidate of `goodBody`. -/
def goodCandidate : Json :=
  .obj [
    ("content", .obj [("parts", .arr [.obj [("text", .str "hello")]])]),
    ("groundingMetadata", .obj [("groundingAttributions", .arr goodAttrs)])]

/-- A candidate with no `groundingMetadata` key at all. -/
def noMetaCandidate : Json :=
  .obj [("content", .obj [("parts", .arr [.obj [("text", .str "hi")]])])]

/-- Mocked transport: HTTP 429 on the first two attempts, then the
well-formed 200. -/
def t429twice : Nat → HttpOutcome :=
  fun n => if n < 2 then .resp 429 (.obj []) else .resp 200 goodBody

/-- Mocked transport: HTTP 500 on every attempt. -/
def t500 : Nat → HttpOutcome := fun _ => .resp 500 (.obj [])

/-- Mocked transport: a network-level failure on every attempt. -/
def tNet : Nat → HttpOutcome := fun _ => .netErr "boom"

/-- An eleven-message history of alternating user/assistant turns plus an
initial stored system turn, used to instantiate the window claims. -/
def hist11 : List Msg :=
  ⟨"system", SYSTEM_PROMPT⟩ ::
    (List.range 11).map (fun i =>
      ⟨if i % 2 = 0 then "user" else "model", "m" ++ toString i⟩)

/-! ## Theorems -/

theorem truthy_ne (j : Json) (h : j.truthy = true) : j ≠ .null ∧ j ≠ .str "" := by
  cases j <;> simp_all [Json.truthy]

/-- C10: `get_bot_response` never mutates its `chat_history` argument:
the filtered window and the prepended system turn are built in fresh
lists, so after any call the history holds exactly the elements it held
before, in the same order. -/
theorem C10_history_unchanged :
    ∀ (h : List Msg) (t : Nat → HttpOutcome),
      (get_bot_response h t).history_after = h :=
  fun _ _ => rfl

/-- C1: for every history with more than 10 non-system turns, the request
contents are exactly the synthetic system turn followed by exactly the
last 10 non-system turns of the history, in their original relative
order (the system turn not counting toward the cap). -/
theorem C1_window_contents (h : List Msg) (t : Nat → HttpOutcome)
    (hlen : 10 < (h.filter (fun m => m.role ≠ "system")).length) :
    (get_bot_response h t).contents.head? = some system_message ∧
    (get_bot_response h t).contents.tail.length = 10 ∧
    (get_bot_response h t).contents.tail.IsSuffix
      (h.filter (fun m => m.role ≠ "system")) := by
  refine ⟨rfl, ?_, ?_⟩
  · show (lastN max_history_length (h.filter (fun m => m.role ≠ "system"))).length = 10
    simp only [lastN, max_history_length, List.length_drop]
    omega
  · show List.IsSuffix (lastN max_history_length (h.filter (fun m => m.role ≠ "system"))) _
    exact List.drop_suffix _ _

/-- Witness for C1 at a concrete 12-message history (11 non-system turns). -/
theorem C1_window_contents_w :
    (get_bot_response hist11 t500).contents.head? = some system_message ∧
    (get_bot_response hist11 t500).contents.tail.length = 10 ∧
    (get_bot_response hist11 t500).contents.tail.IsSuffix
      (hist11.filter (fun m => m.role ≠ "system")) :=
  C1_window_contents hist11 t500 (by decide)

/-- Whenever the Python evaluation of one attribution completes without
raising, its verdict agrees with the pure filter `pureSrc`. -/
theorem evalAttr_ok (attr : Json) (o : Option (Json × Json))
    (h : evalAttr attr = .ok o) : o = pureSrc attr := by
  cases attr with
  | obj kvs =>
    cases hl : jlookup kvs "web" with
    | none =>
      simp [evalAttr, pyGet, pyGetD, hl, Json.truthy, pureSrc, pure, Except.pure,
        Bind.bind, Except.bind] at h ⊢
      exact h.symm
    | some w =>
      cases w with
      | obj wkvs =>
        simp only [evalAttr, pyGet, pyGetD, hl, Bind.bind, Except.bind,
          Option.getD_some, pure, Except.pure] at h
        by_cases hw : (Json.obj wkvs).truthy = true
        · rw [if_pos hw] at h
          by_cases hu : ((jlookup wkvs "uri").getD .null).truthy = true
          · rw [if_pos hu] at h
            by_cases ht2 : ((jlookup wkvs "title").getD .null).truthy = true
            · rw [if_pos ht2] at h
              simp only [Except.ok.injEq] at h
              simp [pureSrc, hl, hw, hu, ht2, ← h]
            · rw [if_neg ht2] at h
              simp only [Except.ok.injEq] at h
              simp [pureSrc, hl, hw, hu, ht2, ← h]
          · rw [if_neg hu] at h
            simp only [Except.ok.injEq] at h
            simp [pureSrc, hl, hw, hu, ← h]
        · rw [if_neg hw] at h
          simp only [Except.ok.injEq] at h
          simp [pureSrc, hl, hw, ← h]
      | null =>
        simp [evalAttr, pyGet, pyGetD, hl, Json.truthy, pureSrc, pure, Except.pure,
          Bind.bind, Except.bind] at h ⊢
        exact h.symm
      | bool b =>
        cases b <;>
          simp [evalAttr, pyGet, pyGetD, hl, Json.truthy, pureSrc, pure, Except.pure,
            Bind.bind, Except.bind] at h ⊢
        exact h.symm
      | num n =>
        by_cases hn : (Json.num n).truthy = true <;>
          simp [evalAttr, pyGet, pyGetD, hl, hn, pureSrc, pure, Except.pure,
            Bind.bind, Except.bind] at h ⊢
        · exact h.symm
      | str s =>
        by_cases hs : (Json.str s).truthy = true <;>
          simp [evalAttr, pyGet, pyGetD, hl, hs, pureSrc, pure, Except.pure,
            Bind.bind, Except.bind] at h ⊢
        · exact h.symm
      | arr xs =>
        by_cases ha : (Json.arr xs).truthy = true <;>
          simp [evalAttr, pyGet, pyGetD, hl, ha, pureSrc, pure, Except.pure,
            Bind.bind, Except.bind] at h ⊢
        · exact h.symm
  | _ =>
    simp [evalAttr, pyGet, pyGetD, Bind.bind, Except.bind] at h

/-- Whenever the whole comprehension completes without raising, its
result is the order-preserving `filterMap` of the pure filter over the
raw attribution list. -/
theorem extractList_ok (attrs : List Json) (l : List (Json × Json))
    (h : extractList attrs = .ok l) : l = attrs.filterMap pureSrc := by
  induction attrs generalizing l with
  | nil =>
    simp only [extractList] at h
    cases h
    simp
  | cons a rest ih =>
    cases he : evalAttr a with
    | error e => simp [extractList, he, Bind.bind, Except.bind] at h
    | ok o =>
      cases ht : extractList rest with
      | error e => simp [extractList, he, ht, Bind.bind, Except.bind] at h
      | ok tl =>
        rw [List.filterMap_cons, ← evalAttr_ok a o he]
        cases o with
        | none =>
          simp only [extractList, he, ht, Bind.bind, Except.bind, pure, Except.pure,
            Except.ok.injEq] at h
          rw [← h]
          exact ih tl ht
        | some p =>
          simp only [extractList, he, ht, Bind.bind, Except.bind, pure, Except.pure,
            Except.ok.injEq] at h
          rw [← h]
          show p :: tl = p :: List.filterMap pureSrc rest
          rw [ih tl ht]

/-- A kept attribution contributes truthy `uri` and `title` fields. -/
theorem pureSrc_fields (attr : Json) (u t : Json)
    (h : pureSrc attr = some (u, t)) : u.truthy = true ∧ t.truthy = true := by
  cases attr with
  | obj kvs =>
    cases hl : jlookup kvs "web" with
    | none => simp [pureSrc, hl] at h
    | some w =>
      cases w with
      | obj wkvs =>
        simp only [pureSrc, hl] at h
        split_ifs at h with hc
        · obtain ⟨⟨_, hu⟩, htt⟩ :
            ((Json.obj wkvs).truthy = true ∧
              ((jlookup wkvs "uri").getD .null).truthy = true) ∧
              ((jlookup wkvs "title").getD .null).truthy = true := by
            simpa [Bool.and_eq_true] using hc
          cases h
          exact ⟨hu, htt⟩
      | null => simp [pureSrc, hl] at h
      | bool b => simp [pureSrc, hl] at h
      | num n => simp [pureSrc, hl] at h
      | str s => simp [pureSrc, hl] at h
      | arr xs => simp [pureSrc, hl] at h
  | null => simp [pureSrc] at h
  | bool b => simp [pureSrc] at h
  | num n => simp [pureSrc] at h
  | str s => simp [pureSrc] at h
  | arr xs => simp [pureSrc] at h

/-- A successful extraction is either the untouched empty source list or
the successful run of the comprehension on some attribution list. -/
theorem extract_sources_ok_cases (cand : Json) (l : List (Json × Json))
    (h : extract_sources cand = .ok l) :
    l = [] ∨ ∃ attrs, extractList attrs = .ok l := by
  cases hg : pyGetD cand "groundingMetadata" (.obj []) with
  | error e => simp [extract_sources, hg, Bind.bind, Except.bind] at h
  | ok gm =>
    by_cases htr : gm.truthy = true
    · cases hk : pyContains "groundingAttributions" gm with
      | error e => simp [extract_sources, hg, htr, hk, Bind.bind, Except.bind] at h
      | ok b =>
        cases b with
        | false =>
          simp [extract_sources, hg, htr, hk, Bind.bind, Except.bind, pure,
            Except.pure] at h
          exact Or.inl h
        | true =>
          cases hs : pySubscript gm "groundingAttributions" with
          | error e =>
            simp [extract_sources, hg, htr, hk, hs, Bind.bind, Except.bind] at h
          | ok aj =>
            cases hi : pyIterate aj with
            | error e =>
              simp [extract_sources, hg, htr, hk, hs, hi, Bind.bind, Except.bind] at h
            | ok items =>
              refine Or.inr ⟨items, ?_⟩
              simpa [extract_sources, hg, htr, hk, hs, hi, Bind.bind, Except.bind] using h
    · simp [extract_sources, hg, htr, Bind.bind, Except.bind, pure,
        Except.pure] at h
      exact Or.inl h

/-- Absent or falsy `groundingMetadata` leaves the source list empty and
is not an error. -/
theorem extract_sources_falsy (cand gm : Json)
    (hg : pyGetD cand "groundingMetadata" (.obj []) = .ok gm)
    (ht : gm.truthy = false) : extract_sources cand = .ok [] := by
  simp [extract_sources, hg, ht, Bind.bind, Except.bind, pure, Except.pure]

/-- C5: the source list of a successful extraction never contains an
entry with an empty or missing title or uri; the comprehension is the
order-preserving filter `pureSrc` of the raw attribution list (dropping
every attribution missing either field); and absent or falsy
`groundingMetadata` yields the empty source list rather than an error. -/
theorem C5_source_filter :
    (∀ cand l, extract_sources cand = .ok l →
      ∀ p ∈ l, p.1 ≠ Json.null ∧ p.1 ≠ Json.str "" ∧
        p.2 ≠ Json.null ∧ p.2 ≠ Json.str "")
    ∧ (∀ attrs l, extractList attrs = .ok l → l = attrs.filterMap pureSrc)
    ∧ (∀ cand gm, pyGetD cand "groundingMetadata" (.obj []) = .ok gm →
        gm.truthy = false → extract_sources cand = .ok []) := by
  refine ⟨?_, fun attrs l h => extractList_ok attrs l h,
    fun cand gm hg ht => extract_sources_falsy cand gm hg ht⟩
  intro cand l h p hp
  rcases extract_sources_ok_cases cand l h with rfl | ⟨attrs, he⟩
  · cases hp
  · have hfm := extractList_ok attrs l he
    subst hfm
    rcases List.mem_filterMap.mp hp with ⟨a, _, hpa⟩
    have hp2 : pureSrc a = some (p.1, p.2) := by simpa using hpa
    obtain ⟨hu, htt⟩ := pureSrc_fields a p.1 p.2 hp2
    exact ⟨(truthy_ne _ hu).1, (truthy_ne _ hu).2,
      (truthy_ne _ htt).1, (truthy_ne _ htt).2⟩

/-- Witness for C5 at a concrete candidate with two complete attributions
and one attribution with an empty uri and a missing title, plus a
candidate with no metadata. -/
theorem C5_source_filter_w :
    (∀ p ∈ [(Json.str "u1", Json.str "t1"), (Json.str "u2", Json.str "t2")],
      p.1 ≠ Json.null ∧ p.1 ≠ Json.str "" ∧
        p.2 ≠ Json.null ∧ p.2 ≠ Json.str "")
    ∧ [(Json.str "u1", Json.str "t1"), (Json.str "u2", Json.str "t2")]
        = goodAttrs.filterMap pureSrc
    ∧ extract_sources noMetaCandidate = .ok [] :=
  ⟨C5_source_filter.1 goodCandidate _ rfl,
   C5_source_filter.2.1 goodAttrs _ rfl,
   C5_source_filter.2.2 noMetaCandidate (.obj []) rfl rfl⟩

/-- The loop makes at most `fuel` further attempts. -/
theorem loop_attempts_le (t : Nat → HttpOutcome) :
    ∀ (fuel retries delay : Nat) (sleeps : List Nat) (attempts : Nat),
      (loop t fuel retries delay sleeps attempts).attempts ≤ attempts + fuel := by
  intro fuel
  induction fuel with
  | zero => intro r d s a; simp [loop]
  | succ n ih =>
    intro r d s a
    cases hstep : step (t a) r with
    | finish res => simp only [loop, hstep]; omega
    | retrySleep =>
      simp only [loop, hstep]
      have := ih (r + 1) (d * 2) (s ++ [d]) (a + 1)
      omega

/-- When every attempt retries, the loop exhausts its five attempts,
sleeping 1, 2, 4, 8, 16 seconds, and then raises the terminal error. -/
theorem runBot_all_retry (t : Nat → HttpOutcome)
    (h : ∀ n r, step (t n) r = .retrySleep) :
    runBot t = ⟨.raised ⟨.exc, "Max retries reached. Could not get a response from the API."⟩,
      [1, 2, 4, 8, 16], 5⟩ := by
  simp [runBot, max_retries, loop, h]

/-- C7: for a transport answering HTTP 500 on every attempt,
`get_bot_response` makes exactly 5 attempts and raises the
max-retries-reached error; and for any transport at all it never makes
more than 5 attempts. -/
theorem C7_exhausts_500 (hist : List Msg) (t : Nat → HttpOutcome)
    (h : ∀ n, ∃ body, t n = .resp 500 body) :
    ((get_bot_response hist t).run.result
        = .raised ⟨.exc, "Max retries reached. Could not get a response from the API."⟩
      ∧ (get_bot_response hist t).run.attempts = 5)
    ∧ ∀ (hist2 : List Msg) (t2 : Nat → HttpOutcome),
        (get_bot_response hist2 t2).run.attempts ≤ 5 := by
  constructor
  · have hstep : ∀ n r, step (t n) r = .retrySleep := by
      intro n r
      obtain ⟨b, hb⟩ := h n
      simp [step, hb]
    have hrun := runBot_all_retry t hstep
    exact ⟨by show (runBot t).result = _; rw [hrun],
      by show (runBot t).attempts = _; rw [hrun]⟩
  · intro hist2 t2
    have := loop_attempts_le t2 max_retries 0 1 [] 0
    simpa [get_bot_response, runBot, max_retries] using this

/-- Witness for C7 at the all-500 transport. -/
theorem C7_exhausts_500_w :
    (((get_bot_response [] t500).run.result
        = .raised ⟨.exc, "Max retries reached. Could not get a response from the API."⟩
      ∧ (get_bot_response [] t500).run.attempts = 5)
    ∧ ∀ (hist2 : List Msg) (t2 : Nat → HttpOutcome),
        (get_bot_response hist2 t2).run.attempts ≤ 5) :=
  C7_exhausts_500 [] t500 (fun _ => ⟨.obj [], rfl⟩)

/-- C6: for a transport answering HTTP 429 exactly twice and then a
well-formed HTTP 200, `get_bot_response` returns the parsed answer using
exactly 3 attempts after sleeping 1 second and then 2 seconds. -/
theorem C6_backoff_429 (hist : List Msg) (t : Nat → HttpOutcome)
    (b0 b1 body text : Json) (sources : List (Json × Json))
    (h0 : t 0 = .resp 429 b0) (h1 : t 1 = .resp 429 b1) (h2 : t 2 = .resp 200 body)
    (hok : handleOk body = .ok (text, sources)) :
    (get_bot_response hist t).run = ⟨.returned text sources, [1, 2], 3⟩ := by
  show runBot t = _
  simp [runBot, max_retries, loop, h0, h1, h2, step, hok]

/-- Witness for C6 at a concrete 429-429-200 transport. -/
theorem C6_backoff_429_w :
    (get_bot_response [] t429twice).run
      = ⟨.returned (.str "hello")
          [(.str "u1", .str "t1"), (.str "u2", .str "t2")], [1, 2], 3⟩ :=
  C6_backoff_429 [] t429twice (.obj []) (.obj []) goodBody (.str "hello")
    [(.str "u1", .str "t1"), (.str "u2", .str "t2")] rfl rfl rfl rfl

/-- C8: a network-level failure sleeps and retries exactly like a 429 or
5xx response (same shared retry path: sleep the current delay, double it),
except on the final allowed attempt (`retries = max_retries - 1`), where
the underlying network error is re-raised to the caller. -/
theorem C8_network_retry :
    (∀ (m : String) (r : Nat), r < max_retries - 1 → step (.netErr m) r = .retrySleep)
    ∧ (∀ (m : String) (r : Nat), max_retries - 1 ≤ r →
        step (.netErr m) r = .finish (.raised ⟨.reqErr, m⟩))
    ∧ (∀ (t : Nat → HttpOutcome) (fuel r d : Nat) (s : List Nat) (a : Nat),
        step (t a) r = .retrySleep →
        loop t (fuel + 1) r d s a = loop t fuel (r + 1) (d * 2) (s ++ [d]) (a + 1))
    ∧ (∀ (b : Json) (r : Nat), step (.resp 429 b) r = .retrySleep) := by
  refine ⟨?_, ?_, ?_, ?_⟩
  · intro m r hr
    have hx : ¬ (max_retries - 1 ≤ r) := by
      simp only [max_retries] at hr ⊢
      omega
    simp only [step]
    rw [if_neg hx]
  · intro m r hr
    simp only [step]
    rw [if_pos hr]
  · intro t fuel r d s a hs
    simp only [loop, hs]
  · intro b r
    simp [step]

/-- Witness for C8 at concrete instances: retry on an early network
error, raise on the final attempt, the shared sleep-and-double loop
equation, and the identical treatment of a 429 response. -/
theorem C8_network_retry_w :
    step (.netErr "boom") 0 = .retrySleep
    ∧ step (.netErr "boom") 4 = .finish (.raised ⟨.reqErr, "boom"⟩)
    ∧ loop tNet 1 0 1 [] 0 = loop tNet 0 1 2 [1] 1
    ∧ step (.resp 429 (.obj [])) 0 = .retrySleep :=
  ⟨C8_network_retry.1 "boom" 0 (by decide),
   C8_network_retry.2.1 "boom" 4 (by decide),
   C8_network_retry.2.2.1 tNet 0 0 1 [] 0 rfl,
   C8_network_retry.2.2.2 (.obj []) 0⟩

/-- C9: on any HTTP response with a 2xx status, `get_bot_response` is
total and never raises, whatever the shape of the JSON body: it ends on
that first attempt with a returned two-tuple, and when the in-line
extraction fails (empty candidate list, empty text, ...) the tuple is
the placeholder error string with an empty source list. -/
theorem C9_2xx_total (status : Nat) (body : Json) (hist : List Msg)
    (t : Nat → HttpOutcome)
    (h2 : 200 ≤ status) (h3 : status < 300) (ht : t 0 = .resp status body) :
    (∃ text sources, (get_bot_response hist t).run.result = .returned text sources)
    ∧ (get_bot_response hist t).run.attempts = 1
    ∧ (∀ e, handleOk body = .error e →
        (get_bot_response hist t).run.result = .returned (.str (placeholderText e)) [])
    ∧ (∀ e, (get_bot_response hist t).run.result ≠ .raised e) := by
  have hok400 : status < 400 := by omega
  cases hh : handleOk body with
  | ok p =>
    obtain ⟨text, srcs⟩ := p
    have hrun : (get_bot_response hist t).run = ⟨.returned text srcs, [], 1⟩ := by
      show runBot t = _
      simp [runBot, max_retries, loop, ht, step, hok400, hh]
    refine ⟨⟨text, srcs, by rw [hrun]⟩, by rw [hrun], ?_, ?_⟩
    · intro e he
      cases he
    · intro e hc
      rw [hrun] at hc
      cases hc
  | error e0 =>
    have hrun : (get_bot_response hist t).run
        = ⟨.returned (.str (placeholderText e0)) [], [], 1⟩ := by
      show runBot t = _
      simp [runBot, max_retries, loop, ht, step, hok400, hh]
    refine ⟨⟨_, _, by rw [hrun]⟩, by rw [hrun], ?_, ?_⟩
    · intro e he
      cases he
      rw [hrun]
    · intro e hc
      rw [hrun] at hc
      cases hc

/-- Witness for C9 at a 200 response whose body has an empty candidate
list, which makes the in-line `[0]` indexing raise IndexError. -/
theorem C9_2xx_total_w :
    (∃ text sources, (get_bot_response [] t200nocand).run.result = .returned text sources)
    ∧ (get_bot_response [] t200nocand).run.attempts = 1
    ∧ (∀ e, handleOk noCandBody = .error e →
        (get_bot_response [] t200nocand).run.result = .returned (.str (placeholderText e)) [])
    ∧ (∀ e, (get_bot_response [] t200nocand).run.result ≠ .raised e) :=
  C9_2xx_total 200 noCandBody [] t200nocand (by decide) (by decide) rfl

/-- C2 counterexample: on a 200 response with an empty candidate list
(a malformed 2xx payload), `get_bot_response` does not raise — the
generic handler converts the error into a returned placeholder answer
string, contradicting the claim that errors are always raised. -/
theorem C2_counterexample :
    (get_bot_response [] t200nocand).run.result
      = .returned (.str "Sorry, I encountered an error: list index out of range") []
    ∧ ∀ e, (get_bot_response [] t200nocand).run.result ≠ .raised e := by
  have h1 : (get_bot_response [] t200nocand).run.result
      = .returned (.str "Sorry, I encountered an error: list index out of range") [] := rfl
  exact ⟨h1, fun e hc => by rw [h1] at hc; cases hc⟩

/-- C2 amended: the generic `except Exception` handler converts
malformed-2xx errors and definitive-4xx errors into a returned
placeholder two-tuple instead of raising; only exhausted retries (and,
per C8, a network failure on the final allowed attempt) are raised to
the caller. -/
theorem C2_placeholder_policy :
    (∀ (status : Nat) (body : Json) (r : Nat),
      400 ≤ status → status < 500 → status ≠ 429 →
      step (.resp status body) r
        = .finish (.returned (.str (placeholderText (handleErrStatus status body))) []))
    ∧ (∀ (status : Nat) (body : Json) (r : Nat) (e : PyErr),
        200 ≤ status → status < 300 → handleOk body = .error e →
        step (.resp status body) r
          = .finish (.returned (.str (placeholderText e)) []))
    ∧ (∀ (hist : List Msg) (t : Nat → HttpOutcome),
        (∀ n r, step (t n) r = .retrySleep) →
        (get_bot_response hist t).run.result
          = .raised ⟨.exc, "Max retries reached. Could not get a response from the API."⟩)
    ∧ (∀ (m : String) (r : Nat), max_retries - 1 ≤ r →
        step (.netErr m) r = .finish (.raised ⟨.reqErr, m⟩)) := by
  refine ⟨?_, ?_, ?_, ?_⟩
  · intro status body r h4 h5 h6
    have hA : ¬ status < 400 := by omega
    simp [step, hA, h6, show ¬ (500 ≤ status) from by omega]
  · intro status body r e h2 h3 he
    have hA : status < 400 := by omega
    simp [step, hA, he]
  · intro hist t hstep
    show (runBot t).result = _
    rw [runBot_all_retry t hstep]
  · intro m r h
    simp only [step]
    rw [if_pos h]

/-- Witness for the amended C2 at concrete instances of all four
behaviors. -/
theorem C2_placeholder_policy_w :
    step (.resp 400 (.obj [])) 0
      = .finish (.returned (.str (placeholderText (handleErrStatus 400 (.obj [])))) [])
    ∧ step (.resp 200 noCandBody) 0
      = .finish (.returned
          (.str (placeholderText ⟨.indexErr, "list index out of range"⟩)) [])
    ∧ (get_bot_response [] t500).run.result
      = .raised ⟨.exc, "Max retries reached. Could not get a response from the API."⟩
    ∧ step (.netErr "boom") 4 = .finish (.raised ⟨.reqErr, "boom"⟩) :=
  ⟨C2_placeholder_policy.1 400 (.obj []) 0 (by decide) (by decide) (by decide),
   C2_placeholder_policy.2.1 200 noCandBody 0 ⟨.indexErr, "list index out of range"⟩
     (by decide) (by decide) rfl,
   C2_placeholder_policy.2.2.1 [] t500 (fun _ _ => rfl),
   C2_placeholder_policy.2.2.2 "boom" 4 (by decide)⟩

/-- C3 counterexample: on HTTP 400 with body carrying the provider
message "bad key", `get_bot_response` raises nothing — the internal
`raise Exception("bad key")` is caught by the generic handler and the
function returns the placeholder tuple instead. -/
theorem C3_counterexample :
    (∀ e, (get_bot_response [] t400).run.result ≠ .raised e)
    ∧ (get_bot_response [] t400).run.result
      = .returned (.str "Sorry, I encountered an error: bad key") [] := by
  have h1 : (get_bot_response [] t400).run.result
      = .returned (.str "Sorry, I encountered an error: bad key") [] := rfl
  refine ⟨fun e hc => ?_, h1⟩
  rw [h1] at hc
  cases hc

/-- C3 amended: on any HTTP error status other than 429 and 5xx whose
body carries a provider message, `get_bot_response` ends on the first
attempt with no retries and no back-off sleeps, returning the
placeholder tuple whose text carries the provider-supplied message
(rather than raising an `ApiError`). -/
theorem C3_definitive_4xx (status : Nat) (msg : String) (hist : List Msg)
    (t : Nat → HttpOutcome)
    (h1 : 400 ≤ status) (h2 : status < 500) (h3 : status ≠ 429)
    (ht : t 0 = .resp status (.obj [("error", .obj [("message", .str msg)])])) :
    (get_bot_response hist t).run
      = ⟨.returned (.str ("Sorry, I encountered an error: " ++ msg)) [], [], 1⟩ := by
  show runBot t = _
  have hA : ¬ status < 400 := by omega
  have hErr : handleErrStatus status (.obj [("error", .obj [("message", .str msg)])])
      = ⟨.exc, msg⟩ := rfl
  simp [runBot, max_retries, loop, ht, step, hA, h3,
    show ¬ (500 ≤ status) from by omega, hErr, placeholderText]

/-- Witness for the amended C3 at a concrete 400 with message "bad key". -/
theorem C3_definitive_4xx_w :
    (get_bot_response [] t400).run
      = ⟨.returned (.str "Sorry, I encountered an error: bad key") [], [], 1⟩ :=
  C3_definitive_4xx 400 "bad key" [] t400 (by decide) (by decide) (by decide) rfl

/-- C4 counterexample: on a 200 response whose extracted text is the
empty string, `get_bot_response` does not raise — the internal
`raise Exception("Invalid response structure from API.")` is caught by
the generic handler and the function returns the placeholder tuple. -/
theorem C4_counterexample :
    (∀ e, (get_bot_response [] t200empty).run.result ≠ .raised e)
    ∧ (get_bot_response [] t200empty).run.result
      = .returned
          (.str "Sorry, I encountered an error: Invalid response structure from API.") [] := by
  have h1 : (get_bot_response [] t200empty).run.result
      = .returned
          (.str "Sorry, I encountered an error: Invalid response structure from API.") [] := rfl
  refine ⟨fun e hc => ?_, h1⟩
  rw [h1] at hc
  cases hc

/-- C4 amended: on a 2xx response whose extraction fails (empty text or
absent structure), `get_bot_response` ends immediately on that attempt,
with no retry and no sleeps, returning the placeholder tuple carrying
the internal error message (rather than raising a `MalformedResponse`). -/
theorem C4_malformed_2xx (status : Nat) (body : Json) (e : PyErr) (hist : List Msg)
    (t : Nat → HttpOutcome)
    (h2 : 200 ≤ status) (h3 : status < 300)
    (he : handleOk body = .error e) (ht : t 0 = .resp status body) :
    (get_bot_response hist t).run
      = ⟨.returned (.str (placeholderText e)) [], [], 1⟩ := by
  show runBot t = _
  have hA : status < 400 := by omega
  simp [runBot, max_retries, loop, ht, step, hA, he]

/-- Witness for the amended C4 at a concrete 200 with empty text. -/
theorem C4_malformed_2xx_w :
    (get_bot_response [] t200empty).run
      = ⟨.returned
          (.str (placeholderText ⟨.exc, "Invalid response structure from API."⟩)) [], [], 1⟩ :=
  C4_malformed_2xx 200 emptyTextBody ⟨.exc, "Invalid response structure from API."⟩
    [] t200empty (by decide) (by decide) rfl rfl

end AIMarketing
